import Mathlib

/-!
Formal model of the slice-geometry engine of the Zombieslicer arcade game
(source: `src/main.js`).

The development embeds, as close to the JavaScript source as the logic
allows, the components the specification talks about:

* `intersectUVSquare` — the ray / unit-square clipping routine
  (`main.js` lines 337-377), stated over an arbitrary linear ordered
  field so that it can be instantiated both at `ℚ` (for executable
  witnesses) and at `ℝ` (where the callers feed it normalized, hence
  irrational, directions);
* `sliceVisible` — the fragment shader's per-pixel discard rule
  (`main.js` lines 125-164), over `ℝ` because the shader normalizes the
  cut normal;
* `calculateSliceUVs` / `calculateSliceUVsHand` — the two
  gesture-to-cut resolvers (`main.js` lines 380-423 and 1278-1322);
* `pieceInits` — the separation offsets and velocities given to the two
  sliced halves (`main.js` lines 482-505);
* `emitBlood` — the fixed-pool particle emission loop
  (`main.js` lines 521-524 with the pool of lines 82-101);
* `animatePiece` — the per-tick physics of a sliced piece
  (`main.js` lines 700-737);
* `performSlice` and a session-level step relation — the slice executor's
  observable state effects (`main.js` lines 426-585), with the zombie
  bookkeeping of the spawn loop and the two input paths.

JavaScript `Infinity` only occurs in `intersectUVSquare` before any
arithmetic is done on it; the embedding reifies the three possible
outcomes of each axis pass (`SlabResult`) instead of computing with
infinities, and the one control path on which the JS code keeps
`tMax = Infinity` to the end (both axes parallel) is written as its JS
result, `null`, with a comment at the spot.
-/

/-- A 2D vector, the embedding of `THREE.Vector2` (and of GLSL `vec2`). -/
structure Vec2 (α : Type) where
  x : α
  y : α
deriving DecidableEq, Repr

namespace Vec2

/-- Componentwise subtraction, `THREE.Vector2.subVectors`. -/
instance {α : Type} [Sub α] : Sub (Vec2 α) where
  sub a b := ⟨a.x - b.x, a.y - b.y⟩

/-- Componentwise addition, `THREE.Vector2.addVectors`. -/
instance {α : Type} [Add α] : Add (Vec2 α) where
  add a b := ⟨a.x + b.x, a.y + b.y⟩

/-- Componentwise negation. -/
instance {α : Type} [Neg α] : Neg (Vec2 α) where
  neg a := ⟨-a.x, -a.y⟩

@[simp] theorem sub_x {α : Type} [Sub α] (a b : Vec2 α) : (a - b).x = a.x - b.x := rfl

@[simp] theorem sub_y {α : Type} [Sub α] (a b : Vec2 α) : (a - b).y = a.y - b.y := rfl

@[simp] theorem add_x {α : Type} [Add α] (a b : Vec2 α) : (a + b).x = a.x + b.x := rfl

@[simp] theorem add_y {α : Type} [Add α] (a b : Vec2 α) : (a + b).y = a.y + b.y := rfl

@[simp] theorem neg_x {α : Type} [Neg α] (a : Vec2 α) : (-a).x = -a.x := rfl

@[simp] theorem neg_y {α : Type} [Neg α] (a : Vec2 α) : (-a).y = -a.y := rfl

end Vec2

/-- The dot product of two vectors (GLSL `dot`). -/
def dotV {α : Type} [CommRing α] (a b : Vec2 α) : α :=
  a.x * b.x + a.y * b.y

/-- Componentwise clamp to `[0, 1]`, the embedding of
`THREE.Vector2.clampScalar(0, 1)`
(`Math.max(minVal, Math.min(maxVal, coord))` per coordinate). -/
def clampV {α : Type} [LinearOrder α] [Zero α] [One α] (v : Vec2 α) : Vec2 α :=
  ⟨max 0 (min 1 v.x), max 0 (min 1 v.y)⟩

/-- Outcome of one axis pass of the slab clipping in `intersectUVSquare`:
the JS code either returns `null` early (ray parallel to the axis and the
start coordinate outside `[0,1]`), or leaves `tMin`/`tMax` untouched at
`±Infinity` (parallel but inside), or intersects in the sorted interval
`[t1, t2]`. -/
inductive SlabResult (α : Type) where
  | reject
  | unconstrained
  | interval (lo hi : α)
deriving DecidableEq, Repr

/-- One axis pass of `intersectUVSquare` (`main.js` lines 342-350 for x,
353-361 for y): `s` is the start coordinate on that axis, `d` the
direction component. -/
def axisSlab {α : Type} [LinearOrderedField α] (s d : α) : SlabResult α :=
  if |d| < 1e-6 then
    if s < 0 ∨ s > 1 then .reject else .unconstrained
  else
    let t1 := (0 - s) / d
    let t2 := (1 - s) / d
    if t1 > t2 then .interval t2 t1 else .interval t1 t2

/-- Tail of `intersectUVSquare` (`main.js` lines 364-376) once finite
`tMin`/`tMax` are known: miss and epsilon checks, selection of the
intersection time, range check, and the returned point
`startPoint + direction * tIntersection`. -/
def finishSlab {α : Type} [LinearOrderedField α] (startPoint direction : Vec2 α)
    (tMin tMax : α) : Option (Vec2 α) :=
  if tMin > tMax ∨ tMax < 1e-6 then none
  else
    let tIntersection := if tMin ≥ 1e-6 then tMin else tMax
    if tIntersection < 1e-6 ∨ tIntersection > 1e6 then none
    else some ⟨startPoint.x + direction.x * tIntersection,
               startPoint.y + direction.y * tIntersection⟩

/-- The ray / unit-UV-square intersection routine `intersectUVSquare`
(`main.js` lines 337-377).  When both axes leave `tMin = -Infinity` and
`tMax = Infinity` (both direction components below `1e-6` in magnitude,
start inside on both axes), the JS code reaches
`tIntersection = Infinity > 1e6` and returns `null`; that control path is
written as its result `none` here, all other paths go through
`finishSlab` with the finite bounds the JS code would hold. -/
def intersectUVSquare {α : Type} [LinearOrderedField α] (startPoint direction : Vec2 α) :
    Option (Vec2 α) :=
  match axisSlab startPoint.x direction.x, axisSlab startPoint.y direction.y with
  | .reject, _ => none
  | _, .reject => none
  | .unconstrained, .unconstrained => none
  | .interval lo hi, .unconstrained => finishSlab startPoint direction lo hi
  | .unconstrained, .interval lo hi => finishSlab startPoint direction lo hi
  | .interval a1 a2, .interval b1 b2 =>
      finishSlab startPoint direction (max a1 b1) (min a2 b2)

/-- On an axis where the start coordinate is strictly inside `(0,1)` and
the direction component clears the parallel epsilon, the slab pass
returns a sorted interval `[lo, hi]` with `lo < 0 < hi`, whose endpoints
map to the faces `{0, 1}` and whose interior stays inside `[0, 1]`. -/
theorem axisSlab_spec {s d : ℚ} (h0 : 0 < s) (h1 : s < 1) (hd : ¬ |d| < 1e-6) :
    ∃ lo hi, axisSlab s d = .interval lo hi ∧ lo < 0 ∧ 0 < hi ∧
      (s + d * hi = 0 ∨ s + d * hi = 1) ∧
      (∀ t, lo ≤ t → t ≤ hi → 0 ≤ s + d * t ∧ s + d * t ≤ 1) := by
  have hd0 : d ≠ 0 := by
    intro h
    exact hd (by simp [h]; norm_num)
  rcases lt_or_gt_of_ne hd0 with hneg | hpos
  · -- d < 0 : t1 = -s/d > 0, t2 = (1-s)/d < 0, the branch swaps them
    have ht1 : (0 : ℚ) < (0 - s) / d := by
      apply div_pos_of_neg_of_neg <;> linarith
    have ht2 : (1 - s) / d < 0 := div_neg_of_pos_of_neg (by linarith) hneg
    refine ⟨(1 - s) / d, (0 - s) / d, ?_, ht2, ht1, ?_, ?_⟩
    · simp only [axisSlab, if_neg hd, if_pos (by linarith : (1 - s) / d < (0 - s) / d)]
    · left
      field_simp
      ring
    · intro t hlo hhi
      have e2 : s + d * ((1 - s) / d) = 1 := by field_simp
      have e1 : s + d * ((0 - s) / d) = 0 := by
        field_simp
        ring
      constructor
      · nlinarith [mul_le_mul_of_nonpos_left hhi (le_of_lt hneg)]
      · nlinarith [mul_le_mul_of_nonpos_left hlo (le_of_lt hneg)]
  · -- d > 0 : t1 = -s/d < 0, t2 = (1-s)/d > 0, no swap
    have ht1 : (0 - s) / d < 0 := div_neg_of_neg_of_pos (by linarith) hpos
    have ht2 : (0 : ℚ) < (1 - s) / d := div_pos (by linarith) hpos
    refine ⟨(0 - s) / d, (1 - s) / d, ?_, ht1, ht2, ?_, ?_⟩
    · simp only [axisSlab, if_neg hd, if_neg (by simp only [not_lt]; linarith :
        ¬ (0 - s) / d > (1 - s) / d)]
    · right
      field_simp
    · intro t hlo hhi
      have e1 : s + d * ((0 - s) / d) = 0 := by
        field_simp
        ring
      have e2 : s + d * ((1 - s) / d) = 1 := by field_simp
      constructor
      · nlinarith [mul_le_mul_of_nonneg_left hlo (le_of_lt hpos)]
      · nlinarith [mul_le_mul_of_nonneg_left hhi (le_of_lt hpos)]

/-- C4, counterexample.  The claim says `intersectUVSquare` never returns
`none` for a start strictly inside `(0,1)²` and a non-zero direction,
and that the returned point always lies on the unit-square boundary.
All three parts fail on the code:

* direction `(1e-7, 1e-7)` is non-zero, yet both axis passes hit the
  parallel-epsilon branch, `tMax` stays `Infinity` and the routine
  returns `null`;
* direction `(99e-8, 1e-6)` leaves the x axis unconstrained while the y
  axis allows a time of `990000`, so the returned point drifts to
  `x = 1.4801`, far outside the square;
* start `(1 - 1e-9, 1/2)` with direction `(1, 1)` exits the square after
  time `1e-9 < 1e-6`, which the epsilon check rejects as `null`. -/
theorem C4_intersect_counterexample :
    (intersectUVSquare (⟨1/2, 1/2⟩ : Vec2 ℚ) ⟨1e-7, 1e-7⟩ = none ∧
      (⟨1e-7, 1e-7⟩ : Vec2 ℚ) ≠ ⟨0, 0⟩) ∧
    (intersectUVSquare (⟨1/2, 1/100⟩ : Vec2 ℚ) ⟨99/100000000, 1e-6⟩ =
        some ⟨14801/10000, 1⟩ ∧ (14801/10000 : ℚ) > 1) ∧
    intersectUVSquare (⟨1 - 1e-9, 1/2⟩ : Vec2 ℚ) ⟨1, 1⟩ = none := by
  refine ⟨⟨?_, ?_⟩, ⟨?_, by norm_num⟩, ?_⟩ <;>
    norm_num [intersectUVSquare, axisSlab, finishSlab, abs_lt, max_def, min_def, Vec2.mk.injEq]

/-- C4, amended.  For a start point strictly inside `(0,1)²` and a
direction with both components of magnitude at least `1e-6`, whenever
`intersectUVSquare` returns a point, that point lies on the boundary of
the unit square — both coordinates in `[0,1]`, at least one exactly `0`
or `1` — and is reached at a parametric time `t ≥ 1e-6`, in particular a
strictly positive time along the direction of travel.  (The function may
still return `none`, e.g. when the start sits within `1e-6` travel time
of the exit face.) -/
theorem C4_intersect_amended (s d : Vec2 ℚ)
    (hx0 : 0 < s.x) (hx1 : s.x < 1) (hy0 : 0 < s.y) (hy1 : s.y < 1)
    (hdx : 1e-6 ≤ |d.x|) (hdy : 1e-6 ≤ |d.y|) (p : Vec2 ℚ)
    (hp : intersectUVSquare s d = some p) :
    (∃ t, 1e-6 ≤ t ∧ p.x = s.x + d.x * t ∧ p.y = s.y + d.y * t) ∧
    (0 ≤ p.x ∧ p.x ≤ 1 ∧ 0 ≤ p.y ∧ p.y ≤ 1) ∧
    (p.x = 0 ∨ p.x = 1 ∨ p.y = 0 ∨ p.y = 1) := by
  obtain ⟨lox, hix, hax, hlox, hhix, hbx, hboundx⟩ :=
    axisSlab_spec hx0 hx1 (not_lt.mpr hdx)
  obtain ⟨loy, hiy, hay, hloy, hhiy, hby, hboundy⟩ :=
    axisSlab_spec hy0 hy1 (not_lt.mpr hdy)
  have hmax6 : ¬ (max lox loy ≥ 1e-6) := by
    rw [not_le]
    calc max lox loy < 0 := max_lt hlox hloy
    _ < 1e-6 := by norm_num
  simp only [intersectUVSquare, hax, hay, finishSlab] at hp
  rw [if_neg hmax6] at hp
  -- the rejecting branches return none, contradicting hp, and are closed
  -- by split_ifs itself; only the success branch with the chosen time
  -- tMax = min hix hiy survives
  split_ifs at hp with h1 h2
  push_neg at h1 h2
  rw [Option.some.injEq] at hp
  subst hp
  set t := min hix hiy with ht
  have ht6 : 1e-6 ≤ t := h2.1
  have hlot : ∀ lo : ℚ, lo < 0 → lo ≤ t := fun lo hlo => le_trans (le_of_lt hlo)
    (le_trans (by norm_num) ht6)
  refine ⟨⟨t, ht6, rfl, rfl⟩, ?_, ?_⟩
  · have bx := hboundx t (hlot lox hlox) (min_le_left hix hiy)
    have by' := hboundy t (hlot loy hloy) (min_le_right hix hiy)
    exact ⟨bx.1, bx.2, by'.1, by'.2⟩
  · rcases min_choice hix hiy with hmin | hmin
    · rw [ht, hmin]
      rcases hbx with h | h
      · exact Or.inl h
      · exact Or.inr (Or.inl h)
    · rw [ht, hmin]
      rcases hby with h | h
      · exact Or.inr (Or.inr (Or.inl h))
      · exact Or.inr (Or.inr (Or.inr h))

/-- Witness for the amended C4: from the centre `(1/2, 1/2)` along
`(1, 1)` the routine returns the corner `(1, 1)`, which the amended
theorem certifies as a boundary point reached at positive time. -/
theorem C4_intersect_amended_witness :
    (∃ t, (1e-6 : ℚ) ≤ t ∧ (1 : ℚ) = 1/2 + 1 * t ∧ (1 : ℚ) = 1/2 + 1 * t) ∧
    ((0 : ℚ) ≤ 1 ∧ (1 : ℚ) ≤ 1 ∧ (0 : ℚ) ≤ 1 ∧ (1 : ℚ) ≤ 1) ∧
    ((1 : ℚ) = 0 ∨ (1 : ℚ) = 1 ∨ (1 : ℚ) = 0 ∨ (1 : ℚ) = 1) :=
  C4_intersect_amended ⟨1/2, 1/2⟩ ⟨1, 1⟩ (by norm_num) (by norm_num) (by norm_num)
    (by norm_num) (by norm_num) (by norm_num) ⟨1, 1⟩
    (by norm_num [intersectUVSquare, axisSlab, finishSlab, abs_lt, max_def, min_def])

/-! Real-valued vector geometry.

The fragment shader and the slice executor normalize vectors
(`THREE.Vector2.normalize`, GLSL `normalize`), which introduces square
roots; this part of the model therefore lives over `ℝ`. -/

/-- Euclidean length, `THREE.Vector2.length()` / GLSL `length`. -/
noncomputable def lengthV (v : Vec2 ℝ) : ℝ := Real.sqrt (v.x ^ 2 + v.y ^ 2)

/-- Normalization, `THREE.Vector2.normalize()`: the vector is divided by
`length() || 1`, so the zero vector is returned unchanged. -/
noncomputable def normalizeV (v : Vec2 ℝ) : Vec2 ℝ :=
  if lengthV v = 0 then v else ⟨v.x / lengthV v, v.y / lengthV v⟩

/-- Distance between two points, `a.distanceTo(b)` / GLSL `distance`. -/
noncomputable def distV (a b : Vec2 ℝ) : ℝ := lengthV (a - b)

theorem lengthV_nonneg (v : Vec2 ℝ) : 0 ≤ lengthV v := Real.sqrt_nonneg _

theorem lengthV_sq (v : Vec2 ℝ) : lengthV v ^ 2 = v.x ^ 2 + v.y ^ 2 :=
  Real.sq_sqrt (by positivity)

theorem lengthV_perp (v : Vec2 ℝ) : lengthV ⟨-v.y, v.x⟩ = lengthV v := by
  unfold lengthV
  congr 1
  ring

theorem distV_eq_lengthV_sub (s e : Vec2 ℝ) : distV s e = lengthV (e - s) := by
  unfold distV lengthV
  congr 1
  simp only [Vec2.sub_x, Vec2.sub_y]
  ring


/-! Per-pixel visibility test (fragment shader). -/

/-- The cut normal computed inside the fragment shader
(`main.js` lines 143-144):
`normal = normalize(vec2(-lineVec.y, lineVec.x))` with
`lineVec = uSliceEnd - uSliceStart`. -/
noncomputable def shaderNormal (uSliceStart uSliceEnd : Vec2 ℝ) : Vec2 ℝ :=
  normalizeV ⟨-(uSliceEnd - uSliceStart).y, (uSliceEnd - uSliceStart).x⟩

/-- The signed side value computed inside the fragment shader
(`main.js` lines 145-146): `side = dot(vUv - uSliceStart, normal)`. -/
noncomputable def shaderSide (uSliceStart uSliceEnd vUv : Vec2 ℝ) : ℝ :=
  dotV (vUv - uSliceStart) (shaderNormal uSliceStart uSliceEnd)

/-- The same quantity with the normalization factor cleared: the
perpendicular-dot of `vUv - uSliceStart` against the unnormalized normal
`(-(lineVec.y), lineVec.x)`.  `perpDot s e p = 0` says exactly that `p`
lies on the infinite line through `s` and `e` (for `s ≠ e`). -/
def perpDot (s e p : Vec2 ℝ) : ℝ :=
  dotV (p - s) ⟨-(e - s).y, (e - s).x⟩

/-- The slicing part of the fragment shader (`main.js` lines 136-153),
as the predicate "this surface point survives the slice discard".  For
`uSideToKeep = 0` no discard happens; for a degenerate cut line
(`distance < 0.0001`) everything is discarded when `uSideToKeep > 0` and
kept otherwise; in the main case the pixel survives iff
`side * uSideToKeep < 0` is false. -/
noncomputable def sliceVisible (uSliceStart uSliceEnd : Vec2 ℝ) (uSideToKeep : ℝ)
    (vUv : Vec2 ℝ) : Prop :=
  if uSideToKeep ≠ 0 then
    if distV uSliceStart uSliceEnd < 0.0001 then ¬ (uSideToKeep > 0)
    else ¬ (shaderSide uSliceStart uSliceEnd vUv * uSideToKeep < 0)
  else True

/-- The full per-pixel visibility of the fragment shader: the pixel must
survive the slice discard and its texture sample must not be discarded as
transparent (`main.js` line 160, `texColor.a < 0.1`).  The alpha discard
applies identically to both halves, so the partition property is about
`sliceVisible`. -/
noncomputable def fragmentVisible (uSliceStart uSliceEnd : Vec2 ℝ) (uSideToKeep : ℝ)
    (vUv : Vec2 ℝ) (texAlpha : ℝ) : Prop :=
  sliceVisible uSliceStart uSliceEnd uSideToKeep vUv ∧ ¬ (texAlpha < 0.1)

/-- For a non-degenerate cut line the shader's side value is the
unnormalized perpendicular-dot divided by the (positive) cut-line
length. -/
theorem shaderSide_eq (s e p : Vec2 ℝ) (h : distV s e ≠ 0) :
    shaderSide s e p = perpDot s e p / distV s e := by
  have hL : lengthV ⟨-(e - s).y, (e - s).x⟩ = distV s e := by
    rw [lengthV_perp, distV_eq_lengthV_sub]
  unfold shaderSide shaderNormal normalizeV
  rw [hL, if_neg h]
  unfold perpDot dotV
  field_simp

/-- C1 (partition).  For any valid cut line — `s`, `e` in `[0,1]²` at
distance above `0.001` — and any UV point `p` off the infinite line
through them (`perpDot s e p ≠ 0`), exactly one of the two per-pixel
visibility predicates, `uSideToKeep = +1` and `uSideToKeep = -1`,
accepts `p`: the two kept halves partition the surface off the cut line
with no overlap and no gap. -/
theorem C1_partition (s e p : Vec2 ℝ)
    (hs : 0 ≤ s.x ∧ s.x ≤ 1 ∧ 0 ≤ s.y ∧ s.y ≤ 1)
    (he : 0 ≤ e.x ∧ e.x ≤ 1 ∧ 0 ≤ e.y ∧ e.y ≤ 1)
    (hd : distV s e > 0.001)
    (hp : perpDot s e p ≠ 0) :
    (sliceVisible s e 1 p ∧ ¬ sliceVisible s e (-1) p) ∨
    (¬ sliceVisible s e 1 p ∧ sliceVisible s e (-1) p) := by
  have hLpos : 0 < distV s e := lt_trans (by norm_num) hd
  have hnotdeg : ¬ (distV s e < 0.0001) := by
    have : (0.0001 : ℝ) < 0.001 := by norm_num
    linarith
  have h1v : sliceVisible s e 1 p ↔ ¬ (shaderSide s e p * 1 < 0) := by
    unfold sliceVisible
    rw [if_pos (by norm_num : (1 : ℝ) ≠ 0), if_neg hnotdeg]
  have hm1v : sliceVisible s e (-1) p ↔ ¬ (shaderSide s e p * (-1) < 0) := by
    unfold sliceVisible
    rw [if_pos (by norm_num : (-1 : ℝ) ≠ 0), if_neg hnotdeg]
  rw [shaderSide_eq s e p hLpos.ne'] at h1v hm1v
  rcases hp.lt_or_lt with hneg | hpos
  · right
    have hside : perpDot s e p / distV s e < 0 := div_neg_of_neg_of_pos hneg hLpos
    constructor
    · rw [h1v]
      intro hcon
      exact hcon (by nlinarith)
    · rw [hm1v]
      nlinarith
  · left
    have hside : 0 < perpDot s e p / distV s e := div_pos hpos hLpos
    constructor
    · rw [h1v]
      nlinarith
    · rw [hm1v]
      intro hcon
      exact hcon (by nlinarith)

/-- Witness for C1: the horizontal cut from `(0,0)` to `(1,0)` and the
point `(1/2, 1/2)` strictly above it; the `+1` half keeps the point and
the `-1` half discards it (or vice versa — the theorem instance decides). -/
theorem C1_partition_witness :
    (sliceVisible ⟨0, 0⟩ ⟨1, 0⟩ 1 ⟨1/2, 1/2⟩ ∧
      ¬ sliceVisible ⟨0, 0⟩ ⟨1, 0⟩ (-1) ⟨1/2, 1/2⟩) ∨
    (¬ sliceVisible ⟨0, 0⟩ ⟨1, 0⟩ 1 ⟨1/2, 1/2⟩ ∧
      sliceVisible ⟨0, 0⟩ ⟨1, 0⟩ (-1) ⟨1/2, 1/2⟩) :=
  C1_partition ⟨0, 0⟩ ⟨1, 0⟩ ⟨1/2, 1/2⟩
    (by norm_num) (by norm_num)
    (by
      unfold distV lengthV
      simp only [Vec2.sub_x, Vec2.sub_y]
      norm_num [Real.sqrt_one])
    (by
      unfold perpDot dotV
      simp only [Vec2.sub_x, Vec2.sub_y]
      norm_num)

/-! Slice executor: separation offsets and velocities of the halves. -/

theorem normalizeV_eq_of_length (v : Vec2 ℝ) (h : lengthV v ≠ 0) :
    normalizeV v = ⟨v.x / lengthV v, v.y / lengthV v⟩ := by
  unfold normalizeV
  rw [if_neg h]

theorem lengthV_normalizeV (v : Vec2 ℝ) (h : lengthV v ≠ 0) :
    lengthV (normalizeV v) = 1 := by
  have h1 : lengthV (normalizeV v) ^ 2 = 1 := by
    rw [lengthV_sq, normalizeV_eq_of_length v h]
    show (v.x / lengthV v) ^ 2 + (v.y / lengthV v) ^ 2 = 1
    rw [div_pow, div_pow, div_add_div_same, ← lengthV_sq v, div_self (pow_ne_zero 2 h)]
  have h0 : 0 ≤ lengthV (normalizeV v) := lengthV_nonneg _
  have h2 : (lengthV (normalizeV v) - 1) * (lengthV (normalizeV v) + 1) = 0 := by
    linear_combination h1
  rcases mul_eq_zero.mp h2 with h3 | h3
  · linarith
  · linarith

theorem normalizeV_of_length_one (v : Vec2 ℝ) (h : lengthV v = 1) :
    normalizeV v = v := by
  unfold normalizeV
  rw [h]
  simp

/-- Initial kinematic data handed to one sliced half (`main.js` lines
493-505): the position offset added to the copied transform and the
initial velocity.  The per-piece rotation speed (`0.02` with a random
sign) carries no claim-relevant geometry and is modelled in the piece
physics instead. -/
structure PieceInit where
  sideToKeep : ℝ
  offsetX : ℝ
  offsetY : ℝ
  velX : ℝ
  velY : ℝ

/-- Local vector `sliceVectorUV` of `performSlice` (`main.js` line 486):
`normalize(endUV - startUV)`. -/
noncomputable def sliceVectorUV (startUV endUV : Vec2 ℝ) : Vec2 ℝ :=
  normalizeV (endUV - startUV)

/-- Local vector `normalVectorWorld` of `performSlice` (`main.js` line 487):
`normalize(vec2(-sliceVectorUV.y, sliceVectorUV.x))`. -/
noncomputable def normalVectorWorld (startUV endUV : Vec2 ℝ) : Vec2 ℝ :=
  normalizeV ⟨-(sliceVectorUV startUV endUV).y, (sliceVectorUV startUV endUV).x⟩

/-- The offsets and velocities `performSlice` gives the two halves
(`main.js` lines 489-505): `forceMagnitude = 0.02 * scale.x`,
`separation = 0.05 * scale.x`; piece 1 (`uSideToKeep = +1`) is moved and
impelled along `+normalVectorWorld`, piece 2 (`uSideToKeep = -1`) along
`-normalVectorWorld`. -/
noncomputable def pieceInits (startUV endUV : Vec2 ℝ) (scaleX : ℝ) :
    PieceInit × PieceInit :=
  let n := normalVectorWorld startUV endUV
  let forceMagnitude := 0.02 * scaleX
  let separation := 0.05 * scaleX
  (⟨1, n.x * separation, n.y * separation, n.x * forceMagnitude, n.y * forceMagnitude⟩,
   ⟨-1, -(n.x * separation), -(n.y * separation),
     -(n.x * forceMagnitude), -(n.y * forceMagnitude)⟩)

/-- For a non-degenerate cut line the slice executor's normal and the
fragment shader's normal are the same vector, explicitly the perpendicular
of `e - s` divided by the cut-line length. -/
theorem normalVectorWorld_eq_shaderNormal (s e : Vec2 ℝ) (h : distV s e ≠ 0) :
    normalVectorWorld s e = shaderNormal s e ∧
    shaderNormal s e = ⟨-(e - s).y / distV s e, (e - s).x / distV s e⟩ := by
  have hL : lengthV (e - s) = distV s e := (distV_eq_lengthV_sub s e).symm
  have hLne : lengthV (e - s) ≠ 0 := by rw [hL]; exact h
  have hperp : lengthV ⟨-(e - s).y, (e - s).x⟩ = lengthV (e - s) := lengthV_perp (e - s)
  have hshader : shaderNormal s e = ⟨-(e - s).y / distV s e, (e - s).x / distV s e⟩ := by
    unfold shaderNormal
    rw [normalizeV_eq_of_length _ (by rw [hperp]; exact hLne)]
    rw [show (⟨-(e - s).y, (e - s).x⟩ : Vec2 ℝ).x = -(e - s).y from rfl,
      show (⟨-(e - s).y, (e - s).x⟩ : Vec2 ℝ).y = (e - s).x from rfl, hperp, hL]
  refine ⟨?_, hshader⟩
  have hsv : sliceVectorUV s e = ⟨(e - s).x / lengthV (e - s), (e - s).y / lengthV (e - s)⟩ := by
    unfold sliceVectorUV
    exact normalizeV_eq_of_length _ hLne
  have hone : lengthV (sliceVectorUV s e) = 1 := by
    unfold sliceVectorUV
    exact lengthV_normalizeV _ hLne
  have hperp1 : lengthV ⟨-(sliceVectorUV s e).y, (sliceVectorUV s e).x⟩ = 1 := by
    rw [lengthV_perp (sliceVectorUV s e), hone]
  unfold normalVectorWorld
  rw [normalizeV_of_length_one _ hperp1, hsv, hshader]
  rw [show (⟨(e - s).x / lengthV (e - s), (e - s).y / lengthV (e - s)⟩ : Vec2 ℝ).y
      = (e - s).y / lengthV (e - s) from rfl,
    show (⟨(e - s).x / lengthV (e - s), (e - s).y / lengthV (e - s)⟩ : Vec2 ℝ).x
      = (e - s).x / lengthV (e - s) from rfl, hL]
  rw [Vec2.mk.injEq]
  constructor
  · rw [neg_div]
  · rfl

/-- C6 (piece impulses).  The two pieces of a successful slice get exactly
opposite position offsets and exactly opposite velocities along the unit
normal perpendicular to `e - s`, scaled by the object's scale (`0.05` for
the offset, `0.02` for the velocity); that normal equals the normal of
the per-pixel visibility test; and the `+1` piece's offset strictly
increases the shader's signed side value (it is pushed toward its own
kept half-plane) while the `-1` piece's offset strictly decreases it. -/
theorem C6_piece_impulses (s e : Vec2 ℝ) (c : ℝ) (hd : distV s e > 0.001) (hc : 0 < c) :
    ((pieceInits s e c).1.sideToKeep = 1 ∧ (pieceInits s e c).2.sideToKeep = -1) ∧
    ((pieceInits s e c).2.offsetX = -(pieceInits s e c).1.offsetX ∧
      (pieceInits s e c).2.offsetY = -(pieceInits s e c).1.offsetY ∧
      (pieceInits s e c).2.velX = -(pieceInits s e c).1.velX ∧
      (pieceInits s e c).2.velY = -(pieceInits s e c).1.velY) ∧
    ((pieceInits s e c).1.offsetX = 0.05 * c * (normalVectorWorld s e).x ∧
      (pieceInits s e c).1.offsetY = 0.05 * c * (normalVectorWorld s e).y ∧
      (pieceInits s e c).1.velX = 0.02 * c * (normalVectorWorld s e).x ∧
      (pieceInits s e c).1.velY = 0.02 * c * (normalVectorWorld s e).y) ∧
    normalVectorWorld s e = shaderNormal s e ∧
    ((normalVectorWorld s e).x ^ 2 + (normalVectorWorld s e).y ^ 2 = 1 ∧
      dotV (normalVectorWorld s e) (e - s) = 0) ∧
    (∀ q : Vec2 ℝ,
      perpDot s e (q + ⟨(pieceInits s e c).1.offsetX, (pieceInits s e c).1.offsetY⟩) >
        perpDot s e q ∧
      perpDot s e (q + ⟨(pieceInits s e c).2.offsetX, (pieceInits s e c).2.offsetY⟩) <
        perpDot s e q) := by
  have hLpos : 0 < distV s e := lt_trans (by norm_num) hd
  have hdne : distV s e ≠ 0 := hLpos.ne'
  obtain ⟨heq, hex⟩ := normalVectorWorld_eq_shaderNormal s e hdne
  have hn : normalVectorWorld s e =
      ⟨-(e.y - s.y) / distV s e, (e.x - s.x) / distV s e⟩ := by
    rw [heq.trans hex]
    simp only [Vec2.sub_x, Vec2.sub_y]
  have hL2 : distV s e ^ 2 = (e.x - s.x) ^ 2 + (e.y - s.y) ^ 2 := by
    rw [distV_eq_lengthV_sub, lengthV_sq]
    simp only [Vec2.sub_x, Vec2.sub_y]
  have hΔ : ∀ (q : Vec2 ℝ) (ox oy : ℝ),
      perpDot s e (q + ⟨ox, oy⟩) =
        perpDot s e q + (ox * (-(e.y - s.y)) + oy * (e.x - s.x)) := by
    intro q ox oy
    unfold perpDot dotV
    simp only [Vec2.add_x, Vec2.add_y, Vec2.sub_x, Vec2.sub_y]
    ring
  have key : (pieceInits s e c).1.offsetX * (-(e.y - s.y)) +
      (pieceInits s e c).1.offsetY * (e.x - s.x) = 0.05 * c * distV s e := by
    simp only [pieceInits, hn]
    show -(e.y - s.y) / distV s e * (0.05 * c) * (-(e.y - s.y)) +
      (e.x - s.x) / distV s e * (0.05 * c) * (e.x - s.x) = 0.05 * c * distV s e
    field_simp
    linear_combination -(0.05 * c) * hL2
  refine ⟨⟨rfl, rfl⟩, ⟨rfl, rfl, rfl, rfl⟩, ?_, heq, ?_, ?_⟩
  · refine ⟨?_, ?_, ?_, ?_⟩ <;> simp only [pieceInits] <;> ring
  · constructor
    · rw [hn]
      show (-(e.y - s.y) / distV s e) ^ 2 + ((e.x - s.x) / distV s e) ^ 2 = 1
      rw [div_pow, div_pow, div_add_div_same]
      rw [div_eq_one_iff_eq (pow_ne_zero 2 hdne)]
      linear_combination -hL2
    · rw [hn]
      unfold dotV
      show -(e.y - s.y) / distV s e * (e - s).x + (e.x - s.x) / distV s e * (e - s).y = 0
      simp only [Vec2.sub_x, Vec2.sub_y]
      field_simp
      ring
  · intro q
    have hpos : 0 < 0.05 * c * distV s e := by positivity
    constructor
    · rw [hΔ q _ _, key]
      linarith
    · have key2 : (pieceInits s e c).2.offsetX * (-(e.y - s.y)) +
          (pieceInits s e c).2.offsetY * (e.x - s.x) = -(0.05 * c * distV s e) := by
        have e1 : (pieceInits s e c).2.offsetX = -(pieceInits s e c).1.offsetX := rfl
        have e2 : (pieceInits s e c).2.offsetY = -(pieceInits s e c).1.offsetY := rfl
        rw [e1, e2]
        linear_combination -key
      rw [hΔ q _ _, key2]
      linarith

/-- Witness for C6 at the cut from `(0,0)` to `(1,0)` with scale `2`. -/
theorem C6_piece_impulses_witness :
    ((pieceInits ⟨0, 0⟩ ⟨1, 0⟩ 2).1.sideToKeep = 1 ∧
      (pieceInits ⟨0, 0⟩ ⟨1, 0⟩ 2).2.sideToKeep = -1) ∧
    ((pieceInits ⟨0, 0⟩ ⟨1, 0⟩ 2).2.offsetX = -(pieceInits ⟨0, 0⟩ ⟨1, 0⟩ 2).1.offsetX ∧
      (pieceInits ⟨0, 0⟩ ⟨1, 0⟩ 2).2.offsetY = -(pieceInits ⟨0, 0⟩ ⟨1, 0⟩ 2).1.offsetY ∧
      (pieceInits ⟨0, 0⟩ ⟨1, 0⟩ 2).2.velX = -(pieceInits ⟨0, 0⟩ ⟨1, 0⟩ 2).1.velX ∧
      (pieceInits ⟨0, 0⟩ ⟨1, 0⟩ 2).2.velY = -(pieceInits ⟨0, 0⟩ ⟨1, 0⟩ 2).1.velY) ∧
    ((pieceInits ⟨0, 0⟩ ⟨1, 0⟩ 2).1.offsetX =
        0.05 * 2 * (normalVectorWorld ⟨0, 0⟩ ⟨1, 0⟩).x ∧
      (pieceInits ⟨0, 0⟩ ⟨1, 0⟩ 2).1.offsetY =
        0.05 * 2 * (normalVectorWorld ⟨0, 0⟩ ⟨1, 0⟩).y ∧
      (pieceInits ⟨0, 0⟩ ⟨1, 0⟩ 2).1.velX =
        0.02 * 2 * (normalVectorWorld ⟨0, 0⟩ ⟨1, 0⟩).x ∧
      (pieceInits ⟨0, 0⟩ ⟨1, 0⟩ 2).1.velY =
        0.02 * 2 * (normalVectorWorld ⟨0, 0⟩ ⟨1, 0⟩).y) ∧
    normalVectorWorld ⟨0, 0⟩ ⟨1, 0⟩ = shaderNormal ⟨0, 0⟩ ⟨1, 0⟩ ∧
    ((normalVectorWorld ⟨0, 0⟩ ⟨1, 0⟩).x ^ 2 + (normalVectorWorld ⟨0, 0⟩ ⟨1, 0⟩).y ^ 2 = 1 ∧
      dotV (normalVectorWorld ⟨0, 0⟩ ⟨1, 0⟩) (⟨1, 0⟩ - ⟨0, 0⟩) = 0) ∧
    (∀ q : Vec2 ℝ,
      perpDot ⟨0, 0⟩ ⟨1, 0⟩
          (q + ⟨(pieceInits ⟨0, 0⟩ ⟨1, 0⟩ 2).1.offsetX,
                (pieceInits ⟨0, 0⟩ ⟨1, 0⟩ 2).1.offsetY⟩) >
        perpDot ⟨0, 0⟩ ⟨1, 0⟩ q ∧
      perpDot ⟨0, 0⟩ ⟨1, 0⟩
          (q + ⟨(pieceInits ⟨0, 0⟩ ⟨1, 0⟩ 2).2.offsetX,
                (pieceInits ⟨0, 0⟩ ⟨1, 0⟩ 2).2.offsetY⟩) <
        perpDot ⟨0, 0⟩ ⟨1, 0⟩ q) :=
  C6_piece_impulses ⟨0, 0⟩ ⟨1, 0⟩ 2
    (by
      unfold distV lengthV
      simp only [Vec2.sub_x, Vec2.sub_y]
      norm_num [Real.sqrt_one])
    (by norm_num)

/-! Gesture-to-cut resolvers. -/

attribute [ext] Vec2

/-- Common tail of both resolvers (`main.js` lines 411-422 and
1310-1321): reject when the resolved points are closer than `0.001`
texture units, otherwise clamp both points into `[0,1]²` and hand them to
`performSlice`.  A `some` result means `performSlice` is invoked with the
pair. -/
noncomputable def finishResolve (s e : Vec2 ℝ) : Option (Vec2 ℝ × Vec2 ℝ) :=
  if distV s e < 0.001 then none
  else some (clampV s, clampV e)

/-- The mouse resolver `calculateAndPerformSlice` (`main.js` lines
380-423), up to the final UV pair it passes to `performSlice` (`none`
means the slice attempt is dropped).  `sliceStartValid` / `sliceEndValid`
say whether the press / release raycast hit the target zombie, with
`sliceStartUV` / `sliceEndUV` the hit UVs; the NDC points and the camera
aspect feed the approximate UV direction used to extend an off-surface
release to the texture boundary. -/
noncomputable def calculateSliceUVs (sliceStartValid sliceEndValid : Bool)
    (sliceStartUV sliceEndUV sliceStartNDC sliceEndNDC : Vec2 ℝ) (aspect : ℝ) :
    Option (Vec2 ℝ × Vec2 ℝ) :=
  let directionNDC := normalizeV (sliceEndNDC - sliceStartNDC)
  let directionUVApprox := normalizeV ⟨directionNDC.x, directionNDC.y * aspect⟩
  if sliceStartValid && sliceEndValid then
    finishResolve sliceStartUV sliceEndUV
  else if sliceStartValid && !sliceEndValid then
    match intersectUVSquare sliceStartUV directionUVApprox with
    | none => none
    | some extendedEnd => finishResolve sliceStartUV extendedEnd
  else none

/-- The hand resolver `calculateAndPerformSliceHand` (`main.js` lines
1278-1322), same contract as `calculateSliceUVs`; the per-frame call
already guarantees the start landed on the target, and the degenerate
direction checks (`lengthSq < 1e-6`) abort the attempt.  The
target-null / already-sliced guard is part of `performSlice`'s session
model. -/
noncomputable def calculateSliceUVsHand (startUV startNDC endNDC : Vec2 ℝ)
    (endUVIfValid : Option (Vec2 ℝ)) (aspect : ℝ) : Option (Vec2 ℝ × Vec2 ℝ) :=
  let directionNDC := normalizeV (endNDC - startNDC)
  if directionNDC.x ^ 2 + directionNDC.y ^ 2 < 1e-6 then none
  else
    let directionUVApprox := normalizeV ⟨directionNDC.x, directionNDC.y * aspect⟩
    if directionUVApprox.x ^ 2 + directionUVApprox.y ^ 2 < 1e-6 then none
    else
      match endUVIfValid with
      | some endUV => finishResolve startUV endUV
      | none =>
        match intersectUVSquare startUV directionUVApprox with
        | none => none
        | some extendedEnd => finishResolve startUV extendedEnd

/-- C5, amended.  On both input paths, a slice only executes when the
resolved cut line is at least `0.001` texture units long measured
*before* the final clamp of both points to `[0,1]²` (the clamp itself can
still shorten the executed line, see the counterexample); the rejections
— start point off the target, failed boundary extension, pre-clamp
distance below `0.001` — are silent no-ops in which `performSlice` is
never reached. -/
theorem C5_resolver_amended (sv ev : Bool)
    (sUV eUV sNDC eNDC : Vec2 ℝ) (aspect : ℝ) :
    (sv = false → calculateSliceUVs sv ev sUV eUV sNDC eNDC aspect = none) ∧
    (sv = true → ev = true → distV sUV eUV < 0.001 →
      calculateSliceUVs sv ev sUV eUV sNDC eNDC aspect = none) ∧
    (sv = true → ev = false →
      intersectUVSquare sUV (normalizeV
        ⟨(normalizeV (eNDC - sNDC)).x, (normalizeV (eNDC - sNDC)).y * aspect⟩) = none →
      calculateSliceUVs sv ev sUV eUV sNDC eNDC aspect = none) ∧
    (∀ s' e', calculateSliceUVs sv ev sUV eUV sNDC eNDC aspect = some (s', e') →
      ∃ e0, s' = clampV sUV ∧ e' = clampV e0 ∧ 0.001 ≤ distV sUV e0 ∧
        (e0 = eUV ∨ intersectUVSquare sUV (normalizeV
          ⟨(normalizeV (eNDC - sNDC)).x, (normalizeV (eNDC - sNDC)).y * aspect⟩) =
            some e0)) ∧
    (∀ (stUV stNDC enNDC : Vec2 ℝ) (endValid : Option (Vec2 ℝ)) (asp : ℝ)
      (s' e' : Vec2 ℝ),
      calculateSliceUVsHand stUV stNDC enNDC endValid asp = some (s', e') →
      ∃ e0, s' = clampV stUV ∧ e' = clampV e0 ∧ 0.001 ≤ distV stUV e0) := by
  have hfin : ∀ a b s' e', finishResolve a b = some (s', e') →
      s' = clampV a ∧ e' = clampV b ∧ 0.001 ≤ distV a b := by
    intro a b s' e' hres
    simp only [finishResolve] at hres
    split_ifs at hres with hdd
    rw [Option.some.injEq, Prod.mk.injEq] at hres
    exact ⟨hres.1.symm, hres.2.symm, not_lt.mp hdd⟩
  refine ⟨?_, ?_, ?_, ?_, ?_⟩
  · intro hsv
    subst hsv
    rfl
  · intro hsv hev hdist
    subst hsv
    subst hev
    show finishResolve sUV eUV = none
    simp only [finishResolve, if_pos hdist]
  · intro hsv hev hint
    subst hsv
    subst hev
    show (match intersectUVSquare sUV (normalizeV
        ⟨(normalizeV (eNDC - sNDC)).x, (normalizeV (eNDC - sNDC)).y * aspect⟩) with
      | none => none
      | some extendedEnd => finishResolve sUV extendedEnd) = none
    rw [hint]
  · intro s' e' hres
    rcases sv with _ | _
    · exact absurd hres (by intro h; exact Option.noConfusion h)
    · rcases ev with _ | _
      · -- start hit, end missed: boundary extension
        have hskel : calculateSliceUVs true false sUV eUV sNDC eNDC aspect =
            (match intersectUVSquare sUV (normalizeV
              ⟨(normalizeV (eNDC - sNDC)).x, (normalizeV (eNDC - sNDC)).y * aspect⟩) with
            | none => none
            | some extendedEnd => finishResolve sUV extendedEnd) := rfl
        rw [hskel] at hres
        rcases hcase : intersectUVSquare sUV (normalizeV
            ⟨(normalizeV (eNDC - sNDC)).x, (normalizeV (eNDC - sNDC)).y * aspect⟩) with
          _ | ext
        · rw [hcase] at hres
          exact absurd hres (by simp)
        · rw [hcase] at hres
          obtain ⟨h1, h2, h3⟩ := hfin sUV ext s' e' hres
          exact ⟨ext, h1, h2, h3, Or.inr rfl⟩
      · -- both hit the target
        have hskel : calculateSliceUVs true true sUV eUV sNDC eNDC aspect =
            finishResolve sUV eUV := rfl
        rw [hskel] at hres
        obtain ⟨h1, h2, h3⟩ := hfin sUV eUV s' e' hres
        exact ⟨eUV, h1, h2, h3, Or.inl rfl⟩
  · intro stUV stNDC enNDC endValid asp s' e' hres
    simp only [calculateSliceUVsHand] at hres
    split_ifs at hres with hd1 hd2
    rcases endValid with _ | endUV
    · rcases hcase : intersectUVSquare stUV (normalizeV
          ⟨(normalizeV (enNDC - stNDC)).x, (normalizeV (enNDC - stNDC)).y * asp⟩) with
        _ | ext
      · rw [hcase] at hres
        exact absurd hres (by simp)
      · rw [hcase] at hres
        obtain ⟨h1, h2, h3⟩ := hfin stUV ext s' e' hres
        exact ⟨ext, h1, h2, h3⟩
    · obtain ⟨h1, h2, h3⟩ := hfin stUV endUV s' e' hres
      exact ⟨endUV, h1, h2, h3⟩

/-- Witness for the amended C5: a press and release both on the target at
UVs `(0,0)` and `(1,0)` resolves to exactly those clamped points, with
pre-clamp distance `1 ≥ 0.001`. -/
theorem C5_resolver_amended_witness :
    ∃ e0, (⟨0, 0⟩ : Vec2 ℝ) = clampV ⟨0, 0⟩ ∧ (⟨1, 0⟩ : Vec2 ℝ) = clampV e0 ∧
      (0.001 : ℝ) ≤ distV ⟨0, 0⟩ e0 ∧
      (e0 = ⟨1, 0⟩ ∨ intersectUVSquare (⟨0, 0⟩ : Vec2 ℝ) (normalizeV
        ⟨(normalizeV ((⟨1, 0⟩ : Vec2 ℝ) - ⟨0, 0⟩)).x,
         (normalizeV ((⟨1, 0⟩ : Vec2 ℝ) - ⟨0, 0⟩)).y * 1⟩) = some e0) :=
  (C5_resolver_amended true true ⟨0, 0⟩ ⟨1, 0⟩ ⟨0, 0⟩ ⟨1, 0⟩ 1).2.2.2.1 ⟨0, 0⟩ ⟨1, 0⟩
    (by
      show finishResolve ⟨0, 0⟩ ⟨1, 0⟩ = some (⟨0, 0⟩, ⟨1, 0⟩)
      have hd : distV (⟨0, 0⟩ : Vec2 ℝ) ⟨1, 0⟩ = 1 := by
        show Real.sqrt (((0 : ℝ) - 1) ^ 2 + ((0 : ℝ) - 0) ^ 2) = 1
        rw [show ((0 : ℝ) - 1) ^ 2 + ((0 : ℝ) - 0) ^ 2 = 1 from by norm_num,
          Real.sqrt_one]
      rw [finishResolve, hd]
      norm_num [clampV, Prod.mk.injEq, Vec2.mk.injEq, min_def, max_def])

/-- C5, counterexample.  The distance check of the resolver runs *before*
the final clamp, so the clamp can shorten an accepted cut below the
epsilon.  Concretely: the press hits the target's right edge at
UV `(1, b/(1000h))` with `(a, b, h) = (3999999, 7999996000000,
7999996000001)` a Pythagorean triple with `a/h < 1e-6`; the release
misses the target after the nearly vertical NDC motion `(a/h, -b/h)`
(a unit vector, so both normalizations leave it unchanged, and with
camera aspect `1` the approximate UV direction equals it).  The x axis
of `intersectUVSquare` is parallel-unconstrained, the y axis exits at
time exactly `1/1000`, and the extended end
`(1 + a/(1000h), 0)` lies outside the square.  The pre-clamp distance is
exactly `0.001`, which the strict `< 0.001` check accepts, and after the
final clamp the executed cut line from `(1, b/(1000h))` to `(1, 0)` has
length `b/(1000h) < 0.001` — refuting the claim that every executed cut
line keeps distance above `0.001` through the final clamp. -/
theorem C5_resolver_counterexample :
    calculateSliceUVs true false ⟨1, 7999996000000/7999996000001000⟩ ⟨0, 0⟩ ⟨0, 0⟩
      ⟨3999999/7999996000001, -(7999996000000/7999996000001)⟩ 1 =
      some (⟨1, 7999996000000/7999996000001000⟩, ⟨1, 0⟩) ∧
    distV ⟨1, 7999996000000/7999996000001000⟩ ⟨1, 0⟩ < 0.001 := by
  have hsub : (⟨3999999/7999996000001, -(7999996000000/7999996000001)⟩ : Vec2 ℝ) -
      ⟨0, 0⟩ = ⟨3999999/7999996000001, -(7999996000000/7999996000001)⟩ := by
    ext <;> simp
  have hlen1 : lengthV ⟨(3999999 : ℝ)/7999996000001,
      -(7999996000000/7999996000001)⟩ = 1 := by
    show Real.sqrt (((3999999 : ℝ)/7999996000001) ^ 2 +
      (-((7999996000000 : ℝ)/7999996000001)) ^ 2) = 1
    rw [show ((3999999 : ℝ)/7999996000001) ^ 2 +
      (-((7999996000000 : ℝ)/7999996000001)) ^ 2 = 1 from by norm_num, Real.sqrt_one]
  have hnorm : normalizeV ⟨(3999999 : ℝ)/7999996000001,
      -(7999996000000/7999996000001)⟩ =
      ⟨3999999/7999996000001, -(7999996000000/7999996000001)⟩ :=
    normalizeV_of_length_one _ hlen1
  have harg : normalizeV ⟨(normalizeV ((⟨(3999999 : ℝ)/7999996000001,
        -(7999996000000/7999996000001)⟩ : Vec2 ℝ) - ⟨0, 0⟩)).x,
      (normalizeV ((⟨(3999999 : ℝ)/7999996000001,
        -(7999996000000/7999996000001)⟩ : Vec2 ℝ) - ⟨0, 0⟩)).y * 1⟩ =
      ⟨3999999/7999996000001, -(7999996000000/7999996000001)⟩ := by
    rw [hsub, hnorm]
    show normalizeV ⟨(3999999 : ℝ)/7999996000001,
      -((7999996000000 : ℝ)/7999996000001) * 1⟩ =
      ⟨3999999/7999996000001, -(7999996000000/7999996000001)⟩
    rw [mul_one]
    exact hnorm
  have hint : intersectUVSquare
      (⟨1, (7999996000000 : ℝ)/7999996000001000⟩ : Vec2 ℝ)
      ⟨3999999/7999996000001, -(7999996000000/7999996000001)⟩ =
      some ⟨7999996004000999/7999996000001000, 0⟩ := by
    norm_num [intersectUVSquare, axisSlab, finishSlab, abs_lt, max_def, min_def,
      Vec2.mk.injEq]
  have hdistX : distV (⟨1, (7999996000000 : ℝ)/7999996000001000⟩ : Vec2 ℝ)
      ⟨7999996004000999/7999996000001000, 0⟩ = 1/1000 := by
    show Real.sqrt (((1 : ℝ) - 7999996004000999/7999996000001000) ^ 2 +
      ((7999996000000 : ℝ)/7999996000001000 - 0) ^ 2) = 1/1000
    rw [show ((1 : ℝ) - 7999996004000999/7999996000001000) ^ 2 +
      ((7999996000000 : ℝ)/7999996000001000 - 0) ^ 2 = (1/1000) ^ 2 from by norm_num]
    rw [Real.sqrt_sq (by norm_num : (0 : ℝ) ≤ 1/1000)]
  have hfinX : finishResolve (⟨1, (7999996000000 : ℝ)/7999996000001000⟩ : Vec2 ℝ)
      ⟨7999996004000999/7999996000001000, 0⟩ =
      some (⟨1, 7999996000000/7999996000001000⟩, ⟨1, 0⟩) := by
    rw [finishResolve, hdistX]
    norm_num [clampV, Prod.mk.injEq, Vec2.mk.injEq, min_def, max_def]
  constructor
  · have hskel : calculateSliceUVs true false
        (⟨1, (7999996000000 : ℝ)/7999996000001000⟩ : Vec2 ℝ) ⟨0, 0⟩ ⟨0, 0⟩
        ⟨3999999/7999996000001, -(7999996000000/7999996000001)⟩ 1 =
        (match intersectUVSquare
          (⟨1, (7999996000000 : ℝ)/7999996000001000⟩ : Vec2 ℝ)
          (normalizeV ⟨(normalizeV ((⟨(3999999 : ℝ)/7999996000001,
              -(7999996000000/7999996000001)⟩ : Vec2 ℝ) - ⟨0, 0⟩)).x,
            (normalizeV ((⟨(3999999 : ℝ)/7999996000001,
              -(7999996000000/7999996000001)⟩ : Vec2 ℝ) - ⟨0, 0⟩)).y * 1⟩) with
        | none => none
        | some extendedEnd =>
            finishResolve (⟨1, (7999996000000 : ℝ)/7999996000001000⟩ : Vec2 ℝ)
              extendedEnd) := rfl
    rw [hskel, harg, hint]
    exact hfinX
  · show Real.sqrt (((1 : ℝ) - 1) ^ 2 +
      ((7999996000000 : ℝ)/7999996000001000 - 0) ^ 2) < 0.001
    rw [show ((1 : ℝ) - 1) ^ 2 + ((7999996000000 : ℝ)/7999996000001000 - 0) ^ 2 =
      ((7999996000000 : ℝ)/7999996000001000) ^ 2 from by norm_num]
    rw [Real.sqrt_sq (by norm_num : (0 : ℝ) ≤ 7999996000000/7999996000001000)]
    norm_num

/-! Blood particle pool. -/

/-- Constant `MAX_BLOOD_PARTICLES` (`main.js` line 18): the fixed pool size. -/
def MAX_BLOOD_PARTICLES : ℕ := 50

/-- One iteration body of the emission loop (`main.js` lines 522-535):
`bloodParticlePool.find(p => !p.sprite.visible)` takes the first pool
slot whose sprite is hidden and turns it live (`visible = true`); when
every slot is live the iteration is a `continue`.  The pool is modelled
by its per-slot `sprite.visible` flags — the only state the liveness
bound depends on; the texture, position, velocity, lifetime and so on
assigned to the found slot are randomized per particle and carry no
claim content. -/
def activateFirstFree : List Bool → List Bool
  | [] => []
  | visible :: rest =>
      if visible then visible :: activateFirstFree rest else true :: rest

/-- The emission loop of `performSlice` (`main.js` lines 521-524 with
`numBloodParticles = 18`): `n` iterations of taking the first free
slot. -/
def emitBlood : ℕ → List Bool → List Bool
  | 0, pool => pool
  | n + 1, pool => emitBlood n (activateFirstFree pool)

theorem activateFirstFree_cons_true (rest : List Bool) :
    activateFirstFree (true :: rest) = true :: activateFirstFree rest := rfl

theorem activateFirstFree_cons_false (rest : List Bool) :
    activateFirstFree (false :: rest) = true :: rest := rfl

theorem length_activateFirstFree (pool : List Bool) :
    (activateFirstFree pool).length = pool.length := by
  induction pool with
  | nil => rfl
  | cons visible rest ih =>
    rcases visible with _ | _
    · rw [activateFirstFree_cons_false]
      simp
    · rw [activateFirstFree_cons_true]
      simp [ih]

theorem activateFirstFree_of_full (pool : List Bool) (h : pool.count false = 0) :
    activateFirstFree pool = pool := by
  induction pool with
  | nil => rfl
  | cons visible rest ih =>
    rcases visible with _ | _
    · exfalso
      simp [List.count_cons] at h
    · rw [activateFirstFree_cons_true, ih (by simpa [List.count_cons] using h)]

theorem activateFirstFree_counts (pool : List Bool) (h : pool.count false ≠ 0) :
    (activateFirstFree pool).count true = pool.count true + 1 ∧
    (activateFirstFree pool).count false = pool.count false - 1 := by
  induction pool with
  | nil => simp at h
  | cons visible rest ih =>
    rcases visible with _ | _
    · rw [activateFirstFree_cons_false]
      constructor
      · simp [List.count_cons]
      · simp [List.count_cons]
    · rw [activateFirstFree_cons_true]
      have hrest : rest.count false ≠ 0 := by
        intro h0
        simp [List.count_cons, h0] at h
      obtain ⟨iht, ihf⟩ := ih hrest
      constructor
      · simp [List.count_cons, iht]
      · simp only [List.count_cons, ihf]
        simp

theorem emitBlood_count (n : ℕ) (pool : List Bool) :
    (emitBlood n pool).count true = pool.count true + min n (pool.count false) := by
  induction n generalizing pool with
  | zero => simp [emitBlood]
  | succ n ih =>
    rcases Nat.eq_zero_or_pos (pool.count false) with hfull | hfree
    · rw [emitBlood, activateFirstFree_of_full pool hfull, ih, hfull]
      simp
    · obtain ⟨ht, hf⟩ := activateFirstFree_counts pool hfree.ne'
      rw [emitBlood, ih, ht, hf]
      omega

theorem emitBlood_length (n : ℕ) (pool : List Bool) :
    (emitBlood n pool).length = pool.length := by
  induction n generalizing pool with
  | zero => rfl
  | succ n ih => rw [emitBlood, ih, length_activateFirstFree]

/-- One run of the blood-pool initialization block: once the seven blood
textures of one loader pass have all arrived, `MAX_BLOOD_PARTICLES`
hidden sprite slots are pushed onto `bloodParticlePool`. -/
def initBloodPool : List Bool := List.replicate MAX_BLOOD_PARTICLES false

/-- The pool contents on a run where the MediaPipe setup succeeds.  The
initialization block exists twice in the source: once at module top
level (`main.js` lines 72-107) and once inside `loadAssets` (lines
1059-1078), which `createHandLandmarker` — invoked unconditionally at
line 1325 — calls at line 998.  Both push onto the same
`bloodParticlePool` array, so the pool reaches
`2 * MAX_BLOOD_PARTICLES = 100` slots instead of the intended 50. -/
def bloodPoolDoubleInit : List Bool := initBloodPool ++ initBloodPool

/-! Floor and settle physics of sliced pieces. -/

/-- Constant `FLOOR_Y` (`main.js` line 17). -/
def FLOOR_Y : ℚ := -2.5

/-- Constant `DAMPING` (`main.js` line 27): per-tick damping factor for horizontal
velocity and rotation speed of resting bodies. -/
def DAMPING : ℚ := 0.95

/-- Constant `DESPAWN_TIME` (`main.js` line 29): seconds until resting pieces and
puddles despawn. -/
def DESPAWN_TIME : ℚ := 10

/-- The per-piece state the sliced-pieces loop reads and writes
(`main.js` lines 700-737): position x/y, z-rotation, the `userData`
velocity, rotation speed (`userData.rotation` in the source), floor flag
and despawn timer. -/
structure Piece where
  posX : ℚ
  posY : ℚ
  rotZ : ℚ
  velX : ℚ
  velY : ℚ
  rotSpeed : ℚ
  isOnFloor : Bool
  despawnTimer : ℚ
deriving DecidableEq, Repr

/-- One tick of the sliced-pieces loop for one piece (`main.js` lines
700-737).  Airborne (`!isOnFloor`): integrate velocity into position,
apply gravity `-0.001` to the vertical velocity, integrate rotation, and
on crossing `FLOOR_Y` clamp to the floor, zero the vertical velocity and
start the despawn timer.  Resting: damp the horizontal velocity and the
rotation speed by `DAMPING`, move by the damped values, snap either to
exactly `0` once its magnitude drops below `0.001`, accumulate
`deltaTime` into the despawn timer, and despawn (`none` — the source
removes the piece from the scene and the `slicedPieces` array and
disposes its geometry and material) once the timer reaches
`DESPAWN_TIME`. -/
def animatePiece (deltaTime : ℚ) (piece : Piece) : Option Piece :=
  if piece.isOnFloor then
    let velX := piece.velX * DAMPING
    let rotSpeed := piece.rotSpeed * DAMPING
    let posX := piece.posX + velX
    let rotZ := piece.rotZ + rotSpeed
    let velX2 := if |velX| < 0.001 then 0 else velX
    let rotSpeed2 := if |rotSpeed| < 0.001 then 0 else rotSpeed
    let despawnTimer := piece.despawnTimer + deltaTime
    if despawnTimer ≥ DESPAWN_TIME then none
    else some { piece with
      velX := velX2,
      rotSpeed := rotSpeed2,
      posX := posX,
      rotZ := rotZ,
      despawnTimer := despawnTimer }
  else
    let moved : Piece := { piece with
      posX := piece.posX + piece.velX,
      posY := piece.posY + piece.velY,
      velY := piece.velY - 0.001,
      rotZ := piece.rotZ + piece.rotSpeed }
    if moved.posY ≤ FLOOR_Y then
      some { moved with
        posY := FLOOR_Y,
        isOnFloor := true,
        velY := 0,
        despawnTimer := 0 }
    else some moved

/-- One tick of the whole sliced-pieces sweep.  The source iterates the
array backwards and `splice`s despawned pieces out; since the pieces do
not interact, that is the order-preserving filter of the per-piece
tick. -/
def animateSlicedPieces (deltaTime : ℚ) (pieces : List Piece) : List Piece :=
  pieces.filterMap (animatePiece deltaTime)

/-- C8 (resting piece tick).  For a piece resting on the floor, one tick
multiplies the horizontal velocity and the rotation speed by the damping
factor `0.95`, snaps each of them to exactly `0` once its (damped)
magnitude falls below `0.001`, advances the position and rotation by the
damped values, adds the tick's elapsed time to the despawn timer, and —
once the timer reaches `10` seconds — removes the piece from the active
set instead. -/
theorem C8_resting_piece_tick (dt : ℚ) (p : Piece) (hfloor : p.isOnFloor = true) :
    (p.despawnTimer + dt ≥ DESPAWN_TIME →
      animatePiece dt p = none ∧ animateSlicedPieces dt [p] = []) ∧
    (p.despawnTimer + dt < DESPAWN_TIME →
      animatePiece dt p = some { p with
        velX := if |p.velX * DAMPING| < 0.001 then 0 else p.velX * DAMPING,
        rotSpeed := if |p.rotSpeed * DAMPING| < 0.001 then 0 else p.rotSpeed * DAMPING,
        posX := p.posX + p.velX * DAMPING,
        rotZ := p.rotZ + p.rotSpeed * DAMPING,
        despawnTimer := p.despawnTimer + dt }) := by
  obtain ⟨px, py, rz, vx, vy, rs, fl, ti⟩ := p
  simp only at hfloor
  subst hfloor
  have hskel : animatePiece dt ⟨px, py, rz, vx, vy, rs, true, ti⟩ =
      if ti + dt ≥ DESPAWN_TIME then none
      else some ⟨px + vx * DAMPING, py, rz + rs * DAMPING,
        if |vx * DAMPING| < 0.001 then 0 else vx * DAMPING, vy,
        if |rs * DAMPING| < 0.001 then 0 else rs * DAMPING, true, ti + dt⟩ := rfl
  constructor
  · intro hge
    have hnone : animatePiece dt ⟨px, py, rz, vx, vy, rs, true, ti⟩ = none := by
      rw [hskel, if_pos hge]
    refine ⟨hnone, ?_⟩
    rw [animateSlicedPieces, List.filterMap_cons_none hnone, List.filterMap_nil]
  · intro hlt
    rw [hskel, if_neg (not_le.mpr hlt)]

/-- Witness for C8: a resting piece with velocity `1/2` and rotation
speed `3/10`, ticked by one second, is damped, moved and keeps
accumulating its timer. -/
theorem C8_resting_piece_tick_witness :
    animatePiece 1 ⟨0, 0, 0, 1/2, 0, 3/10, true, 0⟩ =
      some { (⟨0, 0, 0, 1/2, 0, 3/10, true, 0⟩ : Piece) with
        velX := if |(1/2 : ℚ) * DAMPING| < 0.001 then 0 else (1/2 : ℚ) * DAMPING,
        rotSpeed := if |(3/10 : ℚ) * DAMPING| < 0.001 then 0
          else (3/10 : ℚ) * DAMPING,
        posX := (0 : ℚ) + (1/2 : ℚ) * DAMPING,
        rotZ := (0 : ℚ) + (3/10 : ℚ) * DAMPING,
        despawnTimer := (0 : ℚ) + 1 } :=
  (C8_resting_piece_tick 1 ⟨0, 0, 0, 1/2, 0, 3/10, true, 0⟩ rfl).2
    (by norm_num [DESPAWN_TIME])

/-! Slice executor: session-level state. -/

/-- Constant `ZOMBIE_KILL_COOLDOWN` (`main.js` line 1336): the global slice
cooldown in seconds. -/
def ZOMBIE_KILL_COOLDOWN : ℚ := 0.2

/-- A zombie as the slice executor sees it: its identity (JS object
identity, modelled as a numeric id unique per spawn) and its
`userData.isSliced` flag.  The flag is set to `false` at spawn
(`main.js` line 890) and — as the development shows — never set to
`true` anywhere in the source. -/
structure Zombie where
  id : ℕ
  isSliced : Bool
deriving DecidableEq, Repr

/-- The session state the slice executor reads and writes: the
`activeZombies` array, the number of sliced pieces spawned so far
(their kinematics live in `pieceInits` / `animatePiece`), the blood pool
visibility flags with its loaded flag, the score, the global
`lastZombieKillTime`, and the spawn counter `nextId` standing for
JS object identity.  `retiredIds` is a ghost history of the ids
`performSlice` has retired, used to state the stale-reference
invariant; the source has no such list — removal from `activeZombies`
is its only record. -/
structure GameState where
  activeZombies : List Zombie
  slicedPieces : ℕ
  bloodPool : List Bool
  bloodTexturesLoaded : Bool
  score : ℕ
  lastZombieKillTime : ℚ
  retiredIds : List ℕ
  nextId : ℕ
deriving DecidableEq, Repr

/-- The observable state effects of `performSlice(targetZombie, startUV,
endUV)` (`main.js` lines 426-585): no-op when the target is null or
carries `isSliced`, no-op within the global kill cooldown; otherwise the
call stamps `lastZombieKillTime`, removes the target from
`activeZombies` (`indexOf` + `splice`, a no-op when the reference is no
longer in the array — modelled by `List.erase`), creates the two half
pieces, emits 18 blood particles from the pool when the blood textures
are loaded, and adds 50 points.  The cut-line UVs only parameterize the
pieces' shader uniforms and the blood spawn position, modelled separately
by `sliceVisible` and `pieceInits`, so they do not appear in the session
state. -/
def performSlice (now : ℚ) (targetZombie : Option Zombie) (st : GameState) :
    GameState :=
  match targetZombie with
  | none => st
  | some z =>
    if z.isSliced then st
    else if now - st.lastZombieKillTime < ZOMBIE_KILL_COOLDOWN then st
    else
      { st with
        lastZombieKillTime := now,
        activeZombies := st.activeZombies.erase z,
        slicedPieces := st.slicedPieces + 2,
        bloodPool := if st.bloodTexturesLoaded then emitBlood 18 st.bloodPool
          else st.bloodPool,
        score := st.score + 50,
        retiredIds := z.id :: st.retiredIds }

/-- A small concrete session: one fresh zombie on screen, all 50 pool
slots free, nothing sliced yet. -/
def demoState : GameState :=
  { activeZombies := [⟨0, false⟩],
    slicedPieces := 0,
    bloodPool := List.replicate 50 false,
    bloodTexturesLoaded := true,
    score := 0,
    lastZombieKillTime := 0,
    retiredIds := [],
    nextId := 1 }

/-- C2 (idempotent retirement) — the code is wrong.  The source checks
`targetZombie.userData.isSliced` (line 428) and its comment at line 583
says the flag "is now handled per-zombie via userData", but no statement
in the source ever sets it to `true`: the only write is
`isSliced: false` at spawn (line 890).  Hence a second `performSlice` on
the retained reference of an already-sliced zombie, after the cooldown,
passes both guards and runs the whole executor again: here the first
call (at `t = 1` s) yields 2 pieces and 50 points, and the second call
on the same retired zombie (at `t = 2` s) yields 4 pieces and 100
points instead of being the no-op the specification promises. -/
theorem C2_repeat_slice_code_bug :
    (performSlice 1 (some ⟨0, false⟩) demoState).slicedPieces = 2 ∧
    (performSlice 1 (some ⟨0, false⟩) demoState).score = 50 ∧
    (performSlice 1 (some ⟨0, false⟩) demoState).activeZombies = [] ∧
    (performSlice 2 (some ⟨0, false⟩)
      (performSlice 1 (some ⟨0, false⟩) demoState)).slicedPieces = 4 ∧
    (performSlice 2 (some ⟨0, false⟩)
      (performSlice 1 (some ⟨0, false⟩) demoState)).score = 100 := by
  have hns : ¬ ((⟨0, false⟩ : Zombie).isSliced = true) := Bool.false_ne_true
  have h1 : performSlice 1 (some ⟨0, false⟩) demoState =
      { activeZombies := [],
        slicedPieces := 2,
        bloodPool := emitBlood 18 (List.replicate 50 false),
        bloodTexturesLoaded := true,
        score := 50,
        lastZombieKillTime := 1,
        retiredIds := [0],
        nextId := 1 } := by
    simp only [performSlice, if_neg hns]
    rw [if_neg (by norm_num [demoState, ZOMBIE_KILL_COOLDOWN])]
    simp [demoState, List.erase_cons_head]
  have h2 : performSlice 2 (some ⟨0, false⟩)
      (performSlice 1 (some ⟨0, false⟩) demoState) =
      { activeZombies := [],
        slicedPieces := 4,
        bloodPool := emitBlood 18 (emitBlood 18 (List.replicate 50 false)),
        bloodTexturesLoaded := true,
        score := 100,
        lastZombieKillTime := 2,
        retiredIds := [0, 0],
        nextId := 1 } := by
    rw [h1]
    simp only [performSlice, if_neg hns]
    rw [if_neg (by norm_num [ZOMBIE_KILL_COOLDOWN])]
    simp [List.erase_nil]
  exact ⟨by rw [h1], by rw [h1], by rw [h1], by rw [h2], by rw [h2]⟩

/-- C3 (cooldown).  The global 0.2-second cooldown serializes slices
across targets and input paths: with the first slice executed at `t1`,
a second request on a different fresh target less than `0.2` s later is
a silent no-op (the state is untouched), while a request more than
`0.2` s later executes as well — two pairs of pieces, 100 points, and
the cooldown stamp advanced to `t2`. -/
theorem C3_cooldown_serializes (st : GameState) (z1 z2 : Zombie) (t1 t2 : ℚ)
    (hz1 : z1.isSliced = false) (hz2 : z2.isSliced = false) (hzz : z1 ≠ z2)
    (hfirst : t1 - st.lastZombieKillTime ≥ ZOMBIE_KILL_COOLDOWN) :
    (t2 - t1 < ZOMBIE_KILL_COOLDOWN →
      performSlice t2 (some z2) (performSlice t1 (some z1) st) =
        performSlice t1 (some z1) st) ∧
    (t2 - t1 > ZOMBIE_KILL_COOLDOWN →
      (performSlice t2 (some z2) (performSlice t1 (some z1) st)).score =
        st.score + 100 ∧
      (performSlice t2 (some z2) (performSlice t1 (some z1) st)).slicedPieces =
        st.slicedPieces + 4 ∧
      (performSlice t2 (some z2)
        (performSlice t1 (some z1) st)).lastZombieKillTime = t2) := by
  have hz1' : ¬ (z1.isSliced = true) := by
    rw [hz1]
    exact Bool.false_ne_true
  have hz2' : ¬ (z2.isSliced = true) := by
    rw [hz2]
    exact Bool.false_ne_true
  have hcd1 : ¬ (t1 - st.lastZombieKillTime < ZOMBIE_KILL_COOLDOWN) :=
    not_lt.mpr hfirst
  have h1 : performSlice t1 (some z1) st =
      { st with
        lastZombieKillTime := t1,
        activeZombies := st.activeZombies.erase z1,
        slicedPieces := st.slicedPieces + 2,
        bloodPool := if st.bloodTexturesLoaded then emitBlood 18 st.bloodPool
          else st.bloodPool,
        score := st.score + 50,
        retiredIds := z1.id :: st.retiredIds } := by
    simp only [performSlice, if_neg hz1', if_neg hcd1]
  constructor
  · intro hlt
    rw [h1]
    simp only [performSlice, if_neg hz2']
    rw [if_pos (by exact hlt)]
  · intro hgt
    have hcd2 : ¬ (t2 - t1 < ZOMBIE_KILL_COOLDOWN) := not_lt.mpr (le_of_lt hgt)
    rw [h1]
    simp only [performSlice, if_neg hz2']
    rw [if_neg (by exact hcd2)]
    refine ⟨?_, ?_, rfl⟩
    · show st.score + 50 + 50 = st.score + 100
      omega
    · show st.slicedPieces + 2 + 2 = st.slicedPieces + 4
      omega

/-- Witness for C3: with `demoState` (cooldown clock at 0), a slice at
`t = 1` s executes; a second slice on a different fresh zombie at
`t = 1.1` s is a no-op, while one at `t = 1.3` s brings the score to
100. -/
theorem C3_cooldown_serializes_witness :
    performSlice (11/10) (some ⟨1, false⟩)
      (performSlice 1 (some ⟨0, false⟩) demoState) =
      performSlice 1 (some ⟨0, false⟩) demoState ∧
    (performSlice (13/10) (some ⟨1, false⟩)
      (performSlice 1 (some ⟨0, false⟩) demoState)).score = demoState.score + 100 :=
  ⟨(C3_cooldown_serializes demoState ⟨0, false⟩ ⟨1, false⟩ 1 (11/10) rfl rfl
      (by intro h; exact absurd (congrArg Zombie.id h) (by norm_num))
      (by norm_num [demoState, ZOMBIE_KILL_COOLDOWN])).1
    (by norm_num [ZOMBIE_KILL_COOLDOWN]),
   ((C3_cooldown_serializes demoState ⟨0, false⟩ ⟨1, false⟩ 1 (13/10) rfl rfl
      (by intro h; exact absurd (congrArg Zombie.id h) (by norm_num))
      (by norm_num [demoState, ZOMBIE_KILL_COOLDOWN])).2
    (by norm_num [ZOMBIE_KILL_COOLDOWN])).1⟩

/-! Session step relation and the stale-reference invariant. -/

/-- Function `spawnZombie` (`main.js` lines 849-905), restricted to its zombie
bookkeeping: a fresh mesh (a new JS object, modelled by the fresh id
`nextId`) with `userData.isSliced = false` (line 890) is pushed onto
`activeZombies` (line 897). -/
def spawnZombie (st : GameState) : GameState :=
  { st with
    activeZombies := st.activeZombies ++ [⟨st.nextId, false⟩],
    nextId := st.nextId + 1 }

/-- The removal of a zombie that reached `ZOMBIE_END_Z` in the animate
loop (`main.js` lines 665-668): `splice` out of `activeZombies`. -/
def removeZombieAtEnd (z : Zombie) (st : GameState) : GameState :=
  { st with activeZombies := st.activeZombies.erase z }

/-- The common raycast filter of both hit-test functions, `getUVCoords`
(`main.js` line 246) and `getUVCoordsFromNDC` (line 1268):
`activeZombies.filter(z => !z.userData.isSliced)`.  Any object a gesture
hit-test can return is a member of this list. -/
def hitTestCandidates (st : GameState) : List Zombie :=
  st.activeZombies.filter (fun z => !z.isSliced)

/-- The session-level transitions that touch the zombie bookkeeping:
spawning, a slice triggered through either input path (whose target is
always a hit-test result), and removal at the near plane.  The animate
tick for pieces and particles does not touch `activeZombies`,
`retiredIds` or `nextId`. -/
inductive SessionStep : GameState → GameState → Prop where
  | spawn (st : GameState) : SessionStep st (spawnZombie st)
  | slice (st : GameState) (now : ℚ) (z : Zombie)
      (hz : z ∈ hitTestCandidates st) :
      SessionStep st (performSlice now (some z) st)
  | reachEnd (st : GameState) (z : Zombie) (hz : z ∈ st.activeZombies) :
      SessionStep st (removeZombieAtEnd z st)

/-- The state after page load on a run where the MediaPipe setup
succeeds: no zombies, nothing sliced, and the blood pool holding the
`2 * MAX_BLOOD_PARTICLES` hidden slots produced by the doubled
initialization block (see `bloodPoolDoubleInit`). -/
def initialState : GameState :=
  { activeZombies := [],
    slicedPieces := 0,
    bloodPool := bloodPoolDoubleInit,
    bloodTexturesLoaded := true,
    score := 0,
    lastZombieKillTime := 0,
    retiredIds := [],
    nextId := 0 }

/-- States reachable from page load through the public input handlers
and the spawn/animate loops. -/
def Reachable (st : GameState) : Prop :=
  Relation.ReflTransGen SessionStep initialState st

/-- States of the pool-overflow run: after the three spawns, and after
each of the three slices (see `C7_pool_overflow_code_bug`). -/
def overflowState0 : GameState :=
  { activeZombies := [⟨0, false⟩, ⟨1, false⟩, ⟨2, false⟩],
    slicedPieces := 0,
    bloodPool := bloodPoolDoubleInit,
    bloodTexturesLoaded := true,
    score := 0,
    lastZombieKillTime := 0,
    retiredIds := [],
    nextId := 3 }

/-- State after the first slice of the overflow run. -/
def overflowState1 : GameState :=
  { activeZombies := [⟨1, false⟩, ⟨2, false⟩],
    slicedPieces := 2,
    bloodPool := emitBlood 18 bloodPoolDoubleInit,
    bloodTexturesLoaded := true,
    score := 50,
    lastZombieKillTime := 1,
    retiredIds := [0],
    nextId := 3 }

/-- State after the second slice of the overflow run. -/
def overflowState2 : GameState :=
  { activeZombies := [⟨2, false⟩],
    slicedPieces := 4,
    bloodPool := emitBlood 18 (emitBlood 18 bloodPoolDoubleInit),
    bloodTexturesLoaded := true,
    score := 100,
    lastZombieKillTime := 13/10,
    retiredIds := [1, 0],
    nextId := 3 }

/-- State after the third slice of the overflow run. -/
def overflowState3 : GameState :=
  { activeZombies := [],
    slicedPieces := 6,
    bloodPool := emitBlood 18 (emitBlood 18 (emitBlood 18 bloodPoolDoubleInit)),
    bloodTexturesLoaded := true,
    score := 150,
    lastZombieKillTime := 8/5,
    retiredIds := [2, 1, 0],
    nextId := 3 }

/-- C7 (pool bound) — the code is wrong.  The claim (and the spec's
invariant) says at most `MAX_BLOOD_PARTICLES = 50` blood particles are
ever live, but the pool-initialization block runs twice (see
`bloodPoolDoubleInit`), so the real pool has 100 slots and the emission
loop happily fills past 50.  Failing run, fully inside the public input
path: after page load three zombies spawn; they are sliced at
`t = 1` s, `t = 1.3` s and `t = 1.6` s — each pair of requests more
than the 0.2 s cooldown apart, each slice emitting 18 particles whose
lifetimes (at least 1 s in the source) keep them all live — and the
reachable state has 54 live particles, exceeding the claimed bound of
50.  The per-request behavior the claim describes (activate only as
many particles as there are free slots, silently drop the rest) is what
`emitBlood` does and what `emitBlood_count` proves; the violated part
is the 50-particle bound itself. -/
theorem C7_pool_overflow_code_bug :
    bloodPoolDoubleInit.length = 2 * MAX_BLOOD_PARTICLES ∧
    Reachable (performSlice (8/5) (some ⟨2, false⟩)
      (performSlice (13/10) (some ⟨1, false⟩)
        (performSlice 1 (some ⟨0, false⟩)
          (spawnZombie (spawnZombie (spawnZombie initialState)))))) ∧
    (performSlice (8/5) (some ⟨2, false⟩)
      (performSlice (13/10) (some ⟨1, false⟩)
        (performSlice 1 (some ⟨0, false⟩)
          (spawnZombie (spawnZombie (spawnZombie initialState)))))).bloodPool.count
      true = 54 ∧
    MAX_BLOOD_PARTICLES < 54 := by
  have hns0 : ¬ ((⟨0, false⟩ : Zombie).isSliced = true) := Bool.false_ne_true
  have hns1 : ¬ ((⟨1, false⟩ : Zombie).isSliced = true) := Bool.false_ne_true
  have hns2 : ¬ ((⟨2, false⟩ : Zombie).isSliced = true) := Bool.false_ne_true
  have hsp : spawnZombie (spawnZombie (spawnZombie initialState)) = overflowState0 := by
    simp [spawnZombie, initialState, overflowState0]
  have h1 : performSlice 1 (some ⟨0, false⟩) overflowState0 = overflowState1 := by
    simp only [performSlice, if_neg hns0]
    rw [if_neg (by norm_num [overflowState0, ZOMBIE_KILL_COOLDOWN])]
    simp [overflowState0, overflowState1, List.erase_cons_head]
  have h2 : performSlice (13/10) (some ⟨1, false⟩) overflowState1 = overflowState2 := by
    simp only [performSlice, if_neg hns1]
    rw [if_neg (by norm_num [overflowState1, ZOMBIE_KILL_COOLDOWN])]
    simp [overflowState1, overflowState2, List.erase_cons_head]
  have h3 : performSlice (8/5) (some ⟨2, false⟩) overflowState2 = overflowState3 := by
    simp only [performSlice, if_neg hns2]
    rw [if_neg (by norm_num [overflowState2, ZOMBIE_KILL_COOLDOWN])]
    simp [overflowState2, overflowState3, List.erase_cons_head]
  have hchain1 : performSlice 1 (some ⟨0, false⟩)
      (spawnZombie (spawnZombie (spawnZombie initialState))) = overflowState1 := by
    rw [hsp, h1]
  have hchain2 : performSlice (13/10) (some ⟨1, false⟩)
      (performSlice 1 (some ⟨0, false⟩)
        (spawnZombie (spawnZombie (spawnZombie initialState)))) = overflowState2 := by
    rw [hchain1, h2]
  have hchain3 : performSlice (8/5) (some ⟨2, false⟩)
      (performSlice (13/10) (some ⟨1, false⟩)
        (performSlice 1 (some ⟨0, false⟩)
          (spawnZombie (spawnZombie (spawnZombie initialState))))) =
      overflowState3 := by
    rw [hchain2, h3]
  refine ⟨by decide, ?_, ?_, by decide⟩
  · -- the failing state is reached through spawns and input-path slices
    have m0 : (⟨0, false⟩ : Zombie) ∈ hitTestCandidates
        (spawnZombie (spawnZombie (spawnZombie initialState))) := by
      rw [hsp]
      decide
    have m1 : (⟨1, false⟩ : Zombie) ∈ hitTestCandidates
        (performSlice 1 (some ⟨0, false⟩)
          (spawnZombie (spawnZombie (spawnZombie initialState)))) := by
      rw [hchain1]
      decide
    have m2 : (⟨2, false⟩ : Zombie) ∈ hitTestCandidates
        (performSlice (13/10) (some ⟨1, false⟩)
          (performSlice 1 (some ⟨0, false⟩)
            (spawnZombie (spawnZombie (spawnZombie initialState))))) := by
      rw [hchain2]
      decide
    exact Relation.ReflTransGen.tail (Relation.ReflTransGen.tail
      (Relation.ReflTransGen.tail (Relation.ReflTransGen.tail
        (Relation.ReflTransGen.tail
          (Relation.ReflTransGen.single (SessionStep.spawn initialState))
          (SessionStep.spawn _))
        (SessionStep.spawn _))
      (SessionStep.slice _ 1 ⟨0, false⟩ m0))
      (SessionStep.slice _ (13/10) ⟨1, false⟩ m1))
      (SessionStep.slice _ (8/5) ⟨2, false⟩ m2)
  · rw [hchain3]
    decide

/-- Constant `SLICE_GESTURE_THRESHOLD` (`main.js` line 15): minimum NDC distance
of two consecutive fingertip samples for the hand path. -/
noncomputable def SLICE_GESTURE_THRESHOLD : ℝ := 0.03

/-- The trigger decision of the `mouseup` handler (`main.js` lines
291-318): only when a drag is in progress on a stored target zombie and
the NDC distance between press and release exceeds `0.02` is
`calculateAndPerformSlice` invoked on that target; otherwise the handler
just resets its drag bookkeeping. -/
noncomputable def mouseupSliceTrigger (isSlicing : Bool)
    (zombieToSlice : Option Zombie) (sliceStartNDC sliceEndNDC : Vec2 ℝ) :
    Option Zombie :=
  match isSlicing, zombieToSlice with
  | true, some z =>
      if distV sliceStartNDC sliceEndNDC > 0.02 then some z else none
  | _, _ => none

/-- The trigger decision of `processHandData` for one frame (`main.js`
lines 1225-1250): with a previous fingertip sample on record, a
frame-to-frame NDC motion above `SLICE_GESTURE_THRESHOLD = 0.03` whose
previous point raycasts onto a zombie invokes
`calculateAndPerformSliceHand` on that zombie; otherwise nothing is
triggered (the handler only stores the current sample as the new
previous point). -/
noncomputable def handSliceTrigger (previousFingerTipNDC : Option (Vec2 ℝ))
    (currentFingerTipNDC : Vec2 ℝ) (startHit : Option (Vec2 ℝ × Zombie)) :
    Option Zombie :=
  match previousFingerTipNDC with
  | none => none
  | some prev =>
    if distV currentFingerTipNDC prev > SLICE_GESTURE_THRESHOLD then
      match startHit with
      | some (_, z) => some z
      | none => none
    else none

/-- C10 (gesture thresholds).  The two input paths gate slice resolution
on different minimum NDC gesture lengths: the mouse path requires the
press-to-release distance to exceed `0.02`, the hand path requires the
frame-to-frame fingertip distance to exceed `0.03`; shorter gestures
trigger nothing on either path, and the two thresholds differ. -/
theorem C10_gesture_thresholds :
    (∀ (z : Zombie) (sNDC eNDC : Vec2 ℝ),
      (distV sNDC eNDC ≤ 0.02 →
        mouseupSliceTrigger true (some z) sNDC eNDC = none) ∧
      (distV sNDC eNDC > 0.02 →
        mouseupSliceTrigger true (some z) sNDC eNDC = some z)) ∧
    (∀ (prev cur u : Vec2 ℝ) (z : Zombie),
      (distV cur prev ≤ SLICE_GESTURE_THRESHOLD →
        handSliceTrigger (some prev) cur (some (u, z)) = none) ∧
      (distV cur prev > SLICE_GESTURE_THRESHOLD →
        handSliceTrigger (some prev) cur (some (u, z)) = some z)) ∧
    (0.02 : ℝ) < SLICE_GESTURE_THRESHOLD := by
  refine ⟨?_, ?_, ?_⟩
  · intro z sNDC eNDC
    constructor
    · intro hle
      show (if distV sNDC eNDC > 0.02 then some z else none) = none
      rw [if_neg (not_lt.mpr hle)]
    · intro hgt
      show (if distV sNDC eNDC > 0.02 then some z else none) = some z
      rw [if_pos hgt]
  · intro prev cur u z
    constructor
    · intro hle
      show (if distV cur prev > SLICE_GESTURE_THRESHOLD then some z else none) = none
      rw [if_neg (not_lt.mpr hle)]
    · intro hgt
      show (if distV cur prev > SLICE_GESTURE_THRESHOLD then some z else none) = some z
      rw [if_pos hgt]
  · rw [SLICE_GESTURE_THRESHOLD]
    norm_num

/-- Witness for C10: a 0.01-length mouse gesture is ignored while a
full-width one triggers, and a 0.01-length hand motion is ignored. -/
theorem C10_gesture_thresholds_witness :
    mouseupSliceTrigger true (some ⟨0, false⟩) ⟨0, 0⟩ ⟨1/100, 0⟩ = none ∧
    mouseupSliceTrigger true (some ⟨0, false⟩) ⟨0, 0⟩ ⟨1, 0⟩ = some ⟨0, false⟩ ∧
    handSliceTrigger (some ⟨0, 0⟩) ⟨1/100, 0⟩ (some (⟨0, 0⟩, ⟨0, false⟩)) = none := by
  have hd1 : distV (⟨0, 0⟩ : Vec2 ℝ) ⟨1/100, 0⟩ = 1/100 := by
    show Real.sqrt (((0 : ℝ) - 1/100) ^ 2 + ((0 : ℝ) - 0) ^ 2) = 1/100
    rw [show ((0 : ℝ) - 1/100) ^ 2 + ((0 : ℝ) - 0) ^ 2 = (1/100) ^ 2 from by norm_num]
    exact Real.sqrt_sq (by norm_num)
  have hd2 : distV (⟨0, 0⟩ : Vec2 ℝ) ⟨1, 0⟩ = 1 := by
    show Real.sqrt (((0 : ℝ) - 1) ^ 2 + ((0 : ℝ) - 0) ^ 2) = 1
    rw [show ((0 : ℝ) - 1) ^ 2 + ((0 : ℝ) - 0) ^ 2 = 1 from by norm_num, Real.sqrt_one]
  have hd3 : distV (⟨1/100, 0⟩ : Vec2 ℝ) ⟨0, 0⟩ = 1/100 := by
    show Real.sqrt (((1/100 : ℝ) - 0) ^ 2 + ((0 : ℝ) - 0) ^ 2) = 1/100
    rw [show ((1/100 : ℝ) - 0) ^ 2 + ((0 : ℝ) - 0) ^ 2 = (1/100) ^ 2 from by norm_num]
    exact Real.sqrt_sq (by norm_num)
  refine ⟨?_, ?_, ?_⟩
  · exact (C10_gesture_thresholds.1 ⟨0, false⟩ ⟨0, 0⟩ ⟨1/100, 0⟩).1
      (by rw [hd1]; norm_num)
  · exact (C10_gesture_thresholds.1 ⟨0, false⟩ ⟨0, 0⟩ ⟨1, 0⟩).2
      (by rw [hd2]; norm_num)
  · exact (C10_gesture_thresholds.2.1 ⟨0, 0⟩ ⟨1/100, 0⟩ ⟨0, 0⟩ ⟨0, false⟩).1
      (by rw [hd3, SLICE_GESTURE_THRESHOLD]; norm_num)
